import Mathlib

/-!
# Verification of the voice-tutor server repository

Shallow embedding of the repository's WebSocket voice-conversation servers.
The repository contains several near-duplicate variants:

* a non-streaming WebSocket server (whole reply synthesized at once),
* a streaming WebSocket server (sentence-level streaming pipeline), and
* Express servers (`server.js` and duplicates) with `/chat`, `/transcribe`,
  `/tts` endpoints plus an upstream realtime relay.

JavaScript numbers are modelled as exact rationals plus an explicit NaN
marker.  `calculateRMS` ends in `Math.sqrt`, which has no computable exact
model over `ℚ`; since every use of the RMS in the source is the comparison
`rms > VAD_THRESHOLD` and `Math.sqrt` is strictly monotone on nonnegative
inputs (and maps the `0/0` NaN case to NaN), we embed the value *before*
the square root (`calculateRMSsq`) and compare against the squared
threshold, which classifies every frame exactly as the source does.

Strings use Lean `String`; `.length` counts characters where JavaScript
counts UTF-16 code units (they agree on all the concrete inputs used here).
-/

namespace VoiceTutor

/-- A JavaScript number: either NaN or an exact rational value. -/
inductive JSNum where
  | nan : JSNum
  | val : ℚ → JSNum
deriving DecidableEq

/-- JavaScript `x > t` for a possibly-NaN left operand: any comparison with
NaN is `false`. -/
def jsGt : JSNum → ℚ → Bool
  | JSNum.nan, _ => false
  | JSNum.val q, t => decide (t < q)

/-- Decode one little-endian signed 16-bit sample from two bytes, as the
`Int16Array` view in `calculateRMS` does. -/
def int16OfBytes (lo hi : Nat) : Int :=
  let u := (lo % 256) + 256 * (hi % 256)
  if u < 32768 then (u : Int) else (u : Int) - 65536

/-- The samples seen through `new Int16Array(buffer, off, floor(len/2))`:
consecutive byte pairs, any trailing odd byte dropped. -/
def int16Samples : List Nat → List Int
  | lo :: hi :: rest => int16OfBytes lo hi :: int16Samples rest
  | _ => []

/-- `calculateRMS` (identical in both WebSocket variants), embedded up to
the final `Math.sqrt`: the returned rational is the *square* of the RMS
(`sumSquares / numSamples`), and the `0/0` case that JavaScript evaluates
to NaN is returned as `JSNum.nan`.  `Math.sqrt` is strictly monotone on
nonnegatives and `Math.sqrt(NaN)` is NaN, so `rms > t` in the source is
exactly `jsGt (calculateRMSsq buffer) (t*t)` for `t ≥ 0`. -/
def calculateRMSsq (buffer : List Nat) : JSNum :=
  if buffer.length = 0 then JSNum.val 0
  else
    let numSamples := buffer.length / 2
    let samples := int16Samples buffer
    let sumSquares : ℚ :=
      (samples.map (fun s => ((s : ℚ) / 32768) * ((s : ℚ) / 32768))).sum
    if numSamples = 0 then JSNum.nan
    else JSNum.val (sumSquares / (numSamples : ℚ))

/-- `MAX_RECORDING_MS = 15000` — declared in both WebSocket variants with
the comment "Force process after 15s to avoid huge buffers". -/
def MAX_RECORDING_MS : Nat := 15000

/-- `SILENCE_DURATION_MS` of the streaming variant. -/
def SILENCE_DURATION_MS : Nat := 800

namespace Streaming

/-- `VAD_THRESHOLD = 0.02` of the streaming variant. -/
def VAD_THRESHOLD : ℚ := 2 / 100

/-- `BASE_SYSTEM_PROMPT` of the streaming variant (template literal,
leading and trailing newline included). -/
def BASE_SYSTEM_PROMPT : String :=
  "\nYou are a helpful and friendly English language tutor named Lyra.\n- Your goal is to help the user practice English conversation.\n- Keep your responses VERY concise (1 sentence). Speed is priority.\n- Correct major grammatical errors gently, but prioritize fluency.\n- If the user asks to change the topic, adapt immediately.\n- Be encouraging and supportive.\n"

end Streaming

namespace NonStreaming

/-- `VAD_THRESHOLD = 0.01` of the non-streaming variant. -/
def VAD_THRESHOLD : ℚ := 1 / 100

/-- `BASE_SYSTEM_PROMPT` of the non-streaming variant. -/
def BASE_SYSTEM_PROMPT : String :=
  "\nYou are a helpful and friendly English language tutor named Lyra.\n- Your goal is to help the user practice English conversation.\n- Keep your responses concise (1-3 sentences) to keep the conversation flowing.\n- Correct major grammatical errors gently, but prioritize fluency.\n- If the user asks to change the topic, adapt immediately.\n- Be encouraging and supportive.\n"

end NonStreaming

/-- One `{role, content}` message, as stored in `session.history` and sent
to `chat.completions.create`. -/
structure ChatMsg where
  role : String
  content : String
deriving DecidableEq

/-- The per-connection session record created in `wss.on('connection')`.
`silenceTimerSet` is whether `session.silenceTimer` is non-null;
`pendingTimers` counts the silence-timeout callbacks currently scheduled
in the runtime (a `setTimeout` adds one, `clearTimeout` and firing remove
one), so that "at most one silence timer is armed" is a provable fact
rather than a typing artifact. -/
structure Session where
  history : List ChatMsg
  audioBuffer : List (List Nat)
  isSpeaking : Bool
  isAiSpeaking : Bool
  systemPrompt : String
  silenceTimerSet : Bool
  pendingTimers : Nat
deriving DecidableEq

/-- The session record as initialized on connection open. -/
def initSession (basePrompt : String) : Session :=
  { history := []
    audioBuffer := []
    isSpeaking := false
    isAiSpeaking := false
    systemPrompt := basePrompt
    silenceTimerSet := false
    pendingTimers := 0 }

/-- JSON notifications the server sends to the client, plus the raw binary
audio chunks (identified by their byte size). -/
inductive ServerMsg where
  | speechStart
  | speechEnd
  | thinking (text : String)
  | responseText (text : String)
  | audioStart
  | audioChunk (size : Nat)
  | audioEnd
  | errorMsg (message : String)
deriving DecidableEq

/-- Observable steps of the handlers.  `classify` records that
`calculateRMS` was evaluated on a frame, `generationCall` / `ttsCall`
record the external-service calls, `invokePipeline` records the silence
timer triggering `processAudioPipeline`, and `scheduleGateRelease` records
the `setTimeout` that clears `isAiSpeaking`. -/
inductive Action where
  | classify (rms : JSNum)
  | send (msg : ServerMsg)
  | generationCall
  | ttsCall (input : String)
  | invokePipeline
  | scheduleGateRelease (ms : Nat)
deriving DecidableEq

/-- The binary branch of the `ws.on('message')` handler.  The two
WebSocket variants are letter-identical here except for the value of
`VAD_THRESHOLD`, so the handler takes the squared threshold as a
parameter.  First line: `if (session.isAiSpeaking) return;` (Echo Gate). -/
def handleBinaryFrame (thresholdSq : ℚ) (s : Session) (buffer : List Nat) :
    Session × List Action :=
  if s.isAiSpeaking then (s, [])
  else
    let s1 := { s with audioBuffer := s.audioBuffer ++ [buffer] }
    let rms := calculateRMSsq buffer
    if jsGt rms thresholdSq then
      let sa :=
        if !s1.isSpeaking then
          ({ s1 with isSpeaking := true },
           [Action.classify rms, Action.send ServerMsg.speechStart])
        else (s1, [Action.classify rms])
      if sa.1.silenceTimerSet then
        ({ sa.1 with silenceTimerSet := false,
                     pendingTimers := sa.1.pendingTimers - 1 }, sa.2)
      else sa
    else
      if s1.isSpeaking && !s1.silenceTimerSet then
        ({ s1 with silenceTimerSet := true,
                   pendingTimers := s1.pendingTimers + 1 },
         [Action.classify rms])
      else (s1, [Action.classify rms])

/-- The body of the silence-timeout callback: `isSpeaking = false`,
`silenceTimer = null`, send `vad.speech_end`, trigger the pipeline.  The
fired timer itself leaves the runtime's pending set. -/
def handleSilenceTimerFire (s : Session) : Session × List Action :=
  ({ s with isSpeaking := false
            silenceTimerSet := false
            pendingTimers := s.pendingTimers - 1 },
   [Action.send ServerMsg.speechEnd, Action.invokePipeline])

/-- Session-level events: a binary frame arriving, or an armed silence
timer firing. -/
inductive Event where
  | binaryFrame (buffer : List Nat)
  | timerFire

/-- One event step.  A `timerFire` can only actually happen when a timer
is pending; with none pending it is a no-op. -/
def step (thresholdSq : ℚ) (s : Session) : Event → Session × List Action
  | Event.binaryFrame buf => handleBinaryFrame thresholdSq s buf
  | Event.timerFire =>
      if s.pendingTimers = 0 then (s, []) else handleSilenceTimerFire s

/-- Run a sequence of events, returning the final session state. -/
def runEvents (thresholdSq : ℚ) (s : Session) (evs : List Event) : Session :=
  evs.foldl (fun s e => (step thresholdSq s e).1) s

/-- Run a sequence of events, returning all emitted actions in order. -/
def runActs (thresholdSq : ℚ) (s : Session) : List Event → List Action
  | [] => []
  | e :: evs =>
      (step thresholdSq s e).2 ++ runActs thresholdSq (step thresholdSq s e).1 evs

/-- The topic suffix appended by the `config` branch:
`` `\nThe current topic is: ${data.topic}` ``. -/
def topicSuffix (t : String) : String := "\nThe current topic is: " ++ t

/-- The `'config'` branch of the text-message handler (identical in both
WebSocket variants up to `BASE_SYSTEM_PROMPT`): `if (data.topic)` — a
missing topic field or an empty string is falsy and leaves the session
unchanged; otherwise `systemPrompt` is rebuilt from the base prompt. -/
def applyConfig (base : String) (s : Session) (topic : Option String) : Session :=
  match topic with
  | none => s
  | some t => if t = "" then s else { s with systemPrompt := base ++ topicSuffix t }

/-- Fold step computing the last truthy topic of a config sequence. -/
def updTopic (acc : Option String) (topic : Option String) : Option String :=
  match topic with
  | none => acc
  | some t => if t = "" then acc else some t

/-- The last truthy topic supplied by a sequence of config messages. -/
def lastEffectiveTopic (topics : List (Option String)) : Option String :=
  topics.foldl updTopic none

/-- JavaScript `String.prototype.trim` (whitespace stripped at both ends). -/
def jsTrim (s : String) : String :=
  String.mk (((s.toList.dropWhile Char.isWhitespace).reverse.dropWhile
    Char.isWhitespace).reverse)

/-- A character of the sentence-delimiter class `[.!?\n]`. -/
def isSentenceDelim (c : Char) : Bool :=
  c = '.' || c = '!' || c = '?' || c = '\n'

/-- Index of the first sentence-delimiter character, if any
(`match.index` for the regex `/[.!?\n]+/`). -/
def findFirstDelimIdx : List Char → Option Nat
  | [] => none
  | c :: cs =>
      if isSentenceDelim c then some 0
      else (findFirstDelimIdx cs).map (· + 1)

/-- Length of the maximal delimiter run at the head of the list. -/
def delimRunLen : List Char → Nat
  | [] => 0
  | c :: cs => if isSentenceDelim c then 1 + delimRunLen cs else 0

/-- `match.index + match[0].length` for
`sentenceBuffer.match(/[.!?\n]+/)`: the index just past the first maximal
run of sentence delimiters, or `none` when the buffer has no delimiter. -/
def matchDelimEnd (s : String) : Option Nat :=
  (findFirstDelimIdx s.toList).map
    (fun i => i + delimRunLen (s.toList.drop i))

/-- Outcome of one external service call: the awaited value, or a thrown
error. -/
inductive CallResult (α : Type) where
  | ok (a : α) : CallResult α
  | err : CallResult α
deriving DecidableEq

/-- `CHUNK_SIZE = 4096` used when forwarding synthesized audio. -/
def CHUNK_SIZE : Nat := 4096

/-- Structural helper for `audioChunkSends`: the first argument is fuel
bounding the number of loop iterations (each iteration consumes at least
one byte, so `fuel = len` suffices); it exists only to keep the
definition structurally recursive and hence kernel-computable. -/
def audioChunkSendsFuel : Nat → Nat → List ServerMsg
  | _, 0 => []
  | 0, _ + 1 => []
  | fuel + 1, len + 1 =>
      ServerMsg.audioChunk (min CHUNK_SIZE (len + 1)) ::
        audioChunkSendsFuel fuel (len + 1 - CHUNK_SIZE)

/-- The chunking loop
`for (let i = 0; i < len; i += CHUNK_SIZE) send(subarray(i, i+CHUNK_SIZE))`:
the sequence of binary sends for an audio buffer of `len` bytes. -/
def audioChunkSends (len : Nat) : List ServerMsg := audioChunkSendsFuel len len

namespace Streaming

/-- `generateAndStreamTTS` of the streaming variant.  `res` is the outcome
of `openai.audio.speech.create` (`ok` carries the byte length of the
returned audio).  The whole body is wrapped in its own `try/catch` whose
catch only logs, so a TTS error emits nothing to the client and does not
propagate. -/
def generateAndStreamTTS (res : CallResult Nat) (text : String) (isFirst : Bool) :
    List Action :=
  Action.ttsCall text ::
    match res with
    | CallResult.err => []
    | CallResult.ok len =>
        (if isFirst then [Action.send ServerMsg.audioStart] else [])
          ++ (audioChunkSends len).map Action.send

/-- Mutable state of the token-stream loop in `processAudioPipeline`. -/
structure LoopState where
  fullText : String
  sentenceBuffer : String
  isFirstAudioChunk : Bool
  ttsCount : Nat
  acts : List Action
deriving DecidableEq

/-- One iteration of `for await (const chunk of stream)`: accumulate the
token, look for a sentence boundary, and on a boundary with non-blank
content send the rolling text and synthesize the completed sentence.
`tts` gives the outcome of the i-th `openai.audio.speech.create` call. -/
def processToken (tts : Nat → CallResult Nat) (st : LoopState) (content : String) :
    LoopState :=
  if content = "" then st
  else
    let fullText := st.fullText ++ content
    let sentenceBuffer := st.sentenceBuffer ++ content
    match matchDelimEnd sentenceBuffer with
    | none => { st with fullText := fullText, sentenceBuffer := sentenceBuffer }
    | some delimiterIndex =>
        let completeSentence := sentenceBuffer.take delimiterIndex
        let remaining := sentenceBuffer.drop delimiterIndex
        if 0 < (jsTrim completeSentence).length then
          { fullText := fullText
            sentenceBuffer := remaining
            isFirstAudioChunk := false
            ttsCount := st.ttsCount + 1
            acts := st.acts
              ++ [Action.send (ServerMsg.responseText fullText)]
              ++ generateAndStreamTTS (tts st.ttsCount) completeSentence
                   st.isFirstAudioChunk }
        else
          { st with fullText := fullText, sentenceBuffer := remaining }

/-- Outcomes of the external calls one run of the streaming pipeline makes:
the transcription, the `chat.completions.create` call itself, the tokens
the stream delivers, whether the stream then throws mid-iteration, and the
outcome of each TTS call in order. -/
structure PipelineEnv where
  transcription : CallResult String
  generation : CallResult Unit
  tokens : List String
  streamThrows : Bool
  tts : Nat → CallResult Nat

/-- `processAudioPipeline` of the streaming variant: guard on an empty
buffer, clear the buffer, transcribe, abort on an empty/short transcript,
notify `assistant.thinking`, push the user turn, stream the reply while
splitting sentences to TTS, push the assistant turn, and schedule the Echo
Gate release; the `catch` sends one `error` notification and clears
`isAiSpeaking`. -/
def processAudioPipeline (env : PipelineEnv) (s : Session) :
    Session × List Action :=
  if s.audioBuffer.length = 0 then (s, [])
  else
    let s1 := { s with audioBuffer := [] }
    match env.transcription with
    | CallResult.err =>
        ({ s1 with isAiSpeaking := false },
         [Action.send (ServerMsg.errorMsg "Processing failed")])
    | CallResult.ok raw =>
        let userText := jsTrim raw
        if userText.length < 2 then (s1, [])
        else
          let acts1 := [Action.send (ServerMsg.thinking userText)]
          let s2 := { s1 with history := s1.history ++ [ChatMsg.mk "user" userText] }
          match env.generation with
          | CallResult.err =>
              ({ s2 with isAiSpeaking := false },
               acts1 ++ [Action.generationCall,
                         Action.send (ServerMsg.errorMsg "Processing failed")])
          | CallResult.ok _ =>
              let s3 := { s2 with isAiSpeaking := true }
              let st := env.tokens.foldl (processToken env.tts)
                          (LoopState.mk "" "" true 0 [])
              if env.streamThrows then
                ({ s3 with isAiSpeaking := false },
                 acts1 ++ [Action.generationCall] ++ st.acts
                   ++ [Action.send (ServerMsg.errorMsg "Processing failed")])
              else
                let tailActs :=
                  if 0 < (jsTrim st.sentenceBuffer).length then
                    [Action.send (ServerMsg.responseText st.fullText)]
                      ++ generateAndStreamTTS (env.tts st.ttsCount)
                           st.sentenceBuffer st.isFirstAudioChunk
                  else []
                let s4 := { s3 with
                  history := s3.history ++ [ChatMsg.mk "assistant" st.fullText] }
                (s4,
                 acts1 ++ [Action.generationCall] ++ st.acts ++ tailActs
                   ++ [Action.send ServerMsg.audioEnd,
                       Action.scheduleGateRelease 500])

/-- The messages the streaming pipeline sends to
`chat.completions.create`: the system prompt followed by the *entire*
stored history (`[{role:"system",...}, ...session.history]`). -/
def streamingChatMessages (systemPrompt : String) (history : List ChatMsg) :
    List ChatMsg :=
  ChatMsg.mk "system" systemPrompt :: history

end Streaming

namespace NonStreaming

/-- Outcomes of the external calls of the non-streaming pipeline:
transcription, generation (carrying the reply text), and TTS (carrying the
audio byte length). -/
structure PipelineEnv where
  transcription : CallResult String
  generation : CallResult String
  tts : CallResult Nat

/-- `processAudioPipeline` of the non-streaming variant.  Note two
differences from the streaming variant that matter below: the assistant
turn is pushed to `history` *before* the TTS call, and the `catch` block
sends the `error` notification without touching `isAiSpeaking`. -/
def processAudioPipeline (env : PipelineEnv) (s : Session) :
    Session × List Action :=
  if s.audioBuffer.length = 0 then (s, [])
  else
    let s1 := { s with audioBuffer := [] }
    match env.transcription with
    | CallResult.err =>
        (s1, [Action.send (ServerMsg.errorMsg "Processing failed")])
    | CallResult.ok raw =>
        let userText := jsTrim raw
        if userText.length < 2 then (s1, [])
        else
          let acts1 := [Action.send (ServerMsg.thinking userText)]
          let s2 := { s1 with history := s1.history ++ [ChatMsg.mk "user" userText] }
          match env.generation with
          | CallResult.err =>
              (s2, acts1 ++ [Action.generationCall,
                             Action.send (ServerMsg.errorMsg "Processing failed")])
          | CallResult.ok aiText =>
              let s3 := { s2 with
                history := s2.history ++ [ChatMsg.mk "assistant" aiText] }
              let acts2 := acts1 ++ [Action.generationCall,
                                     Action.send (ServerMsg.responseText aiText)]
              match env.tts with
              | CallResult.err =>
                  (s3, acts2 ++ [Action.ttsCall aiText,
                                 Action.send (ServerMsg.errorMsg "Processing failed")])
              | CallResult.ok len =>
                  let s4 := { s3 with isAiSpeaking := true }
                  (s4, acts2 ++ [Action.ttsCall aiText,
                                 Action.send ServerMsg.audioStart]
                         ++ (audioChunkSends len).map Action.send
                         ++ [Action.send ServerMsg.audioEnd,
                             Action.scheduleGateRelease 500])

end NonStreaming

namespace ChatRoute

/-- One client-side conversation turn `{user, ai}` as posted to `/chat`. -/
structure HistTurn where
  user : String
  ai : String
deriving DecidableEq

/-- `MAX_MESSAGE_LENGTH = 500` in the `/chat` handler. -/
def MAX_MESSAGE_LENGTH : Nat := 500

/-- Truncation of one history message:
`m.length > 500 ? m.substring(0, 500) + "..." : m` (the `turn.user &&`
truthiness guard coincides with this on strings, since an empty string is
falsy and also shorter than the cap). -/
def truncateMsg (m : String) : String :=
  if MAX_MESSAGE_LENGTH < m.length then m.take MAX_MESSAGE_LENGTH ++ "..." else m

/-- JavaScript `arr.slice(-k)`: the last `k` elements, except that `k = 0`
gives the whole array (`-0 === 0`). -/
def sliceLast (k : Nat) (l : List HistTurn) : List HistTurn :=
  if k = 0 then l else l.drop (l.length - k)

/-- The system prompt of the `POST /chat` handler in `server.js`. -/
def chatSystemPrompt : String :=
  "You are a friendly English tutor helping a student practice speaking English through natural conversation.\n\nCRITICAL: You MUST ALWAYS respond in this EXACT format (no exceptions):\n\nCorrected: [the corrected version of the user's sentence]\nReply: [your short conversational reply]\n\nIMPORTANT RULES:\n1. ALWAYS start with \"Corrected:\" followed by the corrected sentence\n2. ALWAYS follow with \"Reply:\" followed by your response\n3. If the user's sentence is already correct, repeat it exactly in the \"Corrected:\" line\n4. Keep replies short (1-2 sentences maximum)\n5. Be warm, encouraging, and supportive\n6. Maintain conversation context from previous messages\n\nExample format:\nCorrected: How are you doing today?\nReply: I'm doing great! How about you? What are you up to?\n\nREMEMBER: Your response MUST start with \"Corrected:\" and include \"Reply:\" - this format is mandatory!"

/-- The `messages` array the `POST /chat` handler sends to generation:
system prompt, then the last `MAX_HISTORY_TURNS` turns of
`conversationHistory` (each turn as a truncated user/assistant pair), then
the new user text. -/
def chatMessages (maxHistoryTurns : Nat) (conversationHistory : List HistTurn)
    (userText : String) : List ChatMsg :=
  let messages := [ChatMsg.mk "system" chatSystemPrompt]
  let messages :=
    if 0 < conversationHistory.length then
      (sliceLast maxHistoryTurns conversationHistory).foldl
        (fun ms turn =>
          ms ++ [ChatMsg.mk "user" (truncateMsg turn.user),
                 ChatMsg.mk "assistant" (truncateMsg turn.ai)])
        messages
    else messages
  messages ++ [ChatMsg.mk "user" userText]

end ChatRoute

namespace Relay

/-- Which sides of the relay (client socket, upstream realtime socket) are
still open. -/
structure RelayState where
  clientOpen : Bool
  upstreamOpen : Bool
deriving DecidableEq

/-- Actions a relay close handler can take.  `reconnect` is part of the
vocabulary so that the claimed backoff-and-retry behaviour is expressible;
the handlers embedded from the source never emit it. -/
inductive RelayAction where
  | closeClient
  | closeUpstream
  | reconnect (delayMs : Nat)
deriving DecidableEq

/-- Whether an action is a reconnection attempt. -/
def isReconnect : RelayAction → Bool
  | RelayAction.reconnect _ => true
  | _ => false

/-- `openaiWs.on('close')` of the realtime relay in the Express variant:
`if (ws.readyState === WebSocket.OPEN) ws.close();` — close the client if
it is still open, nothing else. -/
def onUpstreamClose (st : RelayState) : RelayState × List RelayAction :=
  if st.clientOpen then
    ({ clientOpen := false, upstreamOpen := false }, [RelayAction.closeClient])
  else ({ st with upstreamOpen := false }, [])

/-- `ws.on('close')` of the realtime relay:
`if (openaiWs.readyState === WebSocket.OPEN) openaiWs.close();`. -/
def onClientClose (st : RelayState) : RelayState × List RelayAction :=
  if st.upstreamOpen then
    ({ clientOpen := false, upstreamOpen := false }, [RelayAction.closeUpstream])
  else ({ st with clientOpen := false }, [])

/-- `upstream.on("close", () => clientWs.close())` of the proxy variant:
unconditional close of the other side. -/
def onUpstreamCloseSimple (_ : RelayState) : RelayState × List RelayAction :=
  ({ clientOpen := false, upstreamOpen := false }, [RelayAction.closeClient])

end Relay

/-! ## Theorems -/

/-- C1: a binary frame arriving while `aiSpeaking` is true is dropped
before any processing — the handler returns with the session record
(utterance buffer, `speaking` flag, silence timer) untouched and an empty
action trace: the frame is not appended and no RMS classification
(`Action.classify`) is performed.  The handler is shared by both WebSocket
variants (parametric in the squared VAD threshold). -/
theorem echo_gate_drops_frames (thresholdSq : ℚ) (s : Session)
    (buffer : List Nat) (h : s.isAiSpeaking = true) :
    handleBinaryFrame thresholdSq s buffer = (s, []) := by
  simp [handleBinaryFrame, h]

/-- Witness for `echo_gate_drops_frames` at a concrete gated session and
frame. -/
theorem echo_gate_drops_frames_witness :
    handleBinaryFrame ((Streaming.VAD_THRESHOLD * Streaming.VAD_THRESHOLD))
        { initSession Streaming.BASE_SYSTEM_PROMPT with
            isAiSpeaking := true, isSpeaking := true, silenceTimerSet := true,
            pendingTimers := 1 }
        [0, 64]
      = ({ initSession Streaming.BASE_SYSTEM_PROMPT with
            isAiSpeaking := true, isSpeaking := true, silenceTimerSet := true,
            pendingTimers := 1 }, []) :=
  echo_gate_drops_frames _ _ _ rfl

/-- C9 counterexample: a one-byte buffer passes the `!buffer || length===0`
guard, its `Int16Array` view holds zero samples, and the unguarded
`sumSquares / numSamples` is `0/0`, which JavaScript evaluates to NaN —
so `calculateRMS` is *not* NaN-free on sub-2-byte frames. -/
theorem calculateRMS_nan_counterexample :
    calculateRMSsq [7] = JSNum.nan ∧ JSNum.nan ≠ JSNum.val 0 := by
  exact ⟨rfl, by decide⟩

/-- The streaming variant's squared VAD threshold is nonnegative.
(Concrete rational arithmetic is settled by `norm_num`: the `Rat`
operations do not reduce in the kernel.) -/
theorem vadThresholdSq_nonneg :
    0 ≤ Streaming.VAD_THRESHOLD * Streaming.VAD_THRESHOLD := by
  norm_num [Streaming.VAD_THRESHOLD]

/-- C9 amended: `calculateRMS` returns 0 for an empty buffer, but a
1-byte buffer yields NaN (`0/0`); nevertheless, since a NaN (or zero) RMS
compares `false` against any nonnegative threshold, an empty or
sub-2-byte frame is always classified as silence: the handler leaves
`speaking` unchanged and never emits `vad.speech_start` for it. -/
theorem short_frame_classified_silent (thresholdSq : ℚ) (s : Session)
    (buffer : List Nat) (hθ : 0 ≤ thresholdSq) (hlen : buffer.length < 2) :
    calculateRMSsq [] = JSNum.val 0 ∧
    jsGt (calculateRMSsq buffer) thresholdSq = false ∧
    (handleBinaryFrame thresholdSq s buffer).1.isSpeaking = s.isSpeaking ∧
    Action.send ServerMsg.speechStart ∉ (handleBinaryFrame thresholdSq s buffer).2 := by
  have hfalse : jsGt (calculateRMSsq buffer) thresholdSq = false := by
    match buffer, hlen with
    | [], _ =>
        simp only [calculateRMSsq, List.length_nil, if_pos rfl, jsGt]
        exact decide_eq_false (not_lt.mpr hθ)
    | [b], _ =>
        have h1 : calculateRMSsq [b] = JSNum.nan := by
          simp [calculateRMSsq]
        rw [h1]
        rfl
  refine ⟨rfl, hfalse, ?_, ?_⟩
  · by_cases hg : s.isAiSpeaking
    · simp [handleBinaryFrame, hg]
    · simp only [handleBinaryFrame, hg, hfalse, if_false, Bool.false_eq_true,
        if_neg (fun h => hg h)]
      split <;> rfl
  · by_cases hg : s.isAiSpeaking
    · simp [handleBinaryFrame, hg]
    · simp only [handleBinaryFrame, hg, hfalse, Bool.false_eq_true, if_false,
        if_neg (fun h => hg h)]
      split <;> simp

/-- Witness for `short_frame_classified_silent`: a 1-byte frame on a fresh
streaming session. -/
theorem short_frame_classified_silent_witness :
    calculateRMSsq [] = JSNum.val 0 ∧
    jsGt (calculateRMSsq [7]) ((Streaming.VAD_THRESHOLD * Streaming.VAD_THRESHOLD)) = false ∧
    (handleBinaryFrame ((Streaming.VAD_THRESHOLD * Streaming.VAD_THRESHOLD))
        (initSession Streaming.BASE_SYSTEM_PROMPT) [7]).1.isSpeaking
      = (initSession Streaming.BASE_SYSTEM_PROMPT).isSpeaking ∧
    Action.send ServerMsg.speechStart ∉
      (handleBinaryFrame ((Streaming.VAD_THRESHOLD * Streaming.VAD_THRESHOLD))
        (initSession Streaming.BASE_SYSTEM_PROMPT) [7]).2 :=
  short_frame_classified_silent _ _ _ vadThresholdSq_nonneg (by decide)

/-- `foldl updTopic` over any accumulator factors through the `none`
accumulator. -/
theorem updTopic_foldl_factor (topics : List (Option String)) :
    ∀ acc : Option String,
      topics.foldl updTopic acc
        = match topics.foldl updTopic none with
          | some t => some t
          | none => acc := by
  induction topics with
  | nil => intro acc; rfl
  | cons m ms ih =>
      intro acc
      simp only [List.foldl_cons]
      rw [ih (updTopic acc m), ih (updTopic none m)]
      cases hms : ms.foldl updTopic none with
      | some t => rfl
      | none =>
          cases m with
          | none => rfl
          | some t => by_cases ht : t = "" <;> simp [updTopic, ht]

/-- The fold of config messages over a session only ever rebuilds
`systemPrompt` from the base prompt and the last truthy topic. -/
theorem applyConfig_foldl (base : String) (topics : List (Option String)) :
    ∀ s : Session,
      (topics.foldl (applyConfig base) s).systemPrompt
        = match lastEffectiveTopic topics with
          | some t => base ++ topicSuffix t
          | none => s.systemPrompt := by
  induction topics with
  | nil => intro s; rfl
  | cons m ms ih =>
      intro s
      simp only [List.foldl_cons, lastEffectiveTopic] at ih ⊢
      rw [ih (applyConfig base s m), updTopic_foldl_factor ms (updTopic none m)]
      cases hms : ms.foldl updTopic none with
      | some t => rfl
      | none =>
          cases m with
          | none => rfl
          | some t =>
              by_cases ht : t = "" <;> simp [updTopic, ht, applyConfig]

/-- C10: handling `{"type":"config","topic":...}` is last-write-wins, not
cumulative — after any sequence of config messages the session's
`systemPrompt` is the base prompt plus exactly the most recently supplied
(truthy) topic, an earlier topic being fully replaced and the prompt being
left as the base prompt when no truthy topic was ever supplied;
re-applying the same config message is idempotent; and a config message
without a topic field leaves the session unchanged. -/
theorem config_last_write_wins :
    (∀ (base : String) (topics : List (Option String)),
        (topics.foldl (applyConfig base) (initSession base)).systemPrompt
          = match lastEffectiveTopic topics with
            | some t => base ++ topicSuffix t
            | none => base) ∧
    (∀ (base : String) (s : Session) (m : Option String),
        applyConfig base (applyConfig base s m) m = applyConfig base s m) ∧
    (∀ (base : String) (s : Session), applyConfig base s none = s) := by
  refine ⟨?_, ?_, ?_⟩
  · intro base topics
    exact applyConfig_foldl base topics (initSession base)
  · intro base s m
    cases m with
    | none => rfl
    | some t => by_cases ht : t = "" <;> simp [applyConfig, ht]
  · intro base s
    rfl

/-- C8 counterexample: on the very first upstream close (the claimed retry
counter would be 0, below any ceiling) with the client still connected,
the relay of the Express variant performs no wait and no reconnection —
it immediately closes the client side — and the proxy variant does the
same; no `reconnect` action is ever emitted. -/
theorem relay_no_backoff_counterexample :
    Relay.onUpstreamClose { clientOpen := true, upstreamOpen := true }
      = ({ clientOpen := false, upstreamOpen := false },
         [Relay.RelayAction.closeClient]) ∧
    (Relay.onUpstreamClose
        { clientOpen := true, upstreamOpen := true }).2.filter Relay.isReconnect
      = [] ∧
    (Relay.onUpstreamCloseSimple
        { clientOpen := true, upstreamOpen := true }).2.filter Relay.isReconnect
      = [] := by
  decide

/-- C8 amended: in the upstream-relay mode there is no retry counter and
no backoff — when the upstream connection closes while the client is
still connected, the relay immediately closes the client side (the
Express variant after checking the client's readyState, the proxy variant
unconditionally), emitting no reconnection attempt; symmetrically, a
client disconnect closes the upstream side. -/
theorem relay_immediate_close (st : Relay.RelayState)
    (h : st.clientOpen = true) :
    Relay.onUpstreamClose st
      = ({ clientOpen := false, upstreamOpen := false },
         [Relay.RelayAction.closeClient]) ∧
    (Relay.onUpstreamClose st).2.filter Relay.isReconnect = [] ∧
    Relay.onUpstreamCloseSimple st
      = ({ clientOpen := false, upstreamOpen := false },
         [Relay.RelayAction.closeClient]) ∧
    (∀ st2 : Relay.RelayState, st2.upstreamOpen = true →
        Relay.onClientClose st2
          = ({ clientOpen := false, upstreamOpen := false },
             [Relay.RelayAction.closeUpstream])) := by
  refine ⟨?_, ?_, rfl, ?_⟩
  · simp [Relay.onUpstreamClose, h]
  · simp [Relay.onUpstreamClose, h, Relay.isReconnect]
  · intro st2 h2
    simp [Relay.onClientClose, h2]

/-- `MAX_HISTORY_TURNS` of the `/chat` handler with the default
configuration: `parseInt(process.env.MAX_CONVERSATION_HISTORY_TURNS || "5", 10) = 5`. -/
def chatMaxHistoryTurnsDefault : Nat := 5

/-- For a positive limit, `slice(-k)` keeps the last `min k len` turns. -/
theorem sliceLast_length (k : Nat) (hk : 1 ≤ k) (l : List ChatRoute.HistTurn) :
    (ChatRoute.sliceLast k l).length = min k l.length := by
  have hk0 : k ≠ 0 := by omega
  simp only [ChatRoute.sliceLast, hk0, if_false, List.length_drop]
  omega

/-- Pushing user/assistant pairs for each turn adds two messages per turn. -/
theorem pairs_foldl_length (l : List ChatRoute.HistTurn) :
    ∀ ms : List ChatMsg,
      (l.foldl
        (fun ms turn =>
          ms ++ [ChatMsg.mk "user" (ChatRoute.truncateMsg turn.user),
                 ChatMsg.mk "assistant" (ChatRoute.truncateMsg turn.ai)]) ms).length
        = ms.length + 2 * l.length := by
  induction l with
  | nil => intro ms; simp
  | cons t ts ih =>
      intro ms
      rw [List.foldl_cons, ih]
      simp [List.length_append]
      omega

/-- C3 counterexample: the streaming variant's generation request is built
as `[{role:"system"}, ...session.history]` with *no* turn-pair limit —
with six stored turn-pairs and the configured limit of five turn-pairs,
all six pairs are sent (13 messages, where a bounded request would hold at
most 1 + 2·5 = 11). -/
theorem streaming_history_unbounded_counterexample :
    (Streaming.streamingChatMessages Streaming.BASE_SYSTEM_PROMPT
        [ChatMsg.mk "user" "u1", ChatMsg.mk "assistant" "a1",
         ChatMsg.mk "user" "u2", ChatMsg.mk "assistant" "a2",
         ChatMsg.mk "user" "u3", ChatMsg.mk "assistant" "a3",
         ChatMsg.mk "user" "u4", ChatMsg.mk "assistant" "a4",
         ChatMsg.mk "user" "u5", ChatMsg.mk "assistant" "a5",
         ChatMsg.mk "user" "u6", ChatMsg.mk "assistant" "a6"]).length = 13 ∧
    1 + 2 * chatMaxHistoryTurnsDefault < 13 := by
  exact ⟨rfl, by decide⟩

/-- C3 amended: only the Express `/chat` handler bounds the history — its
generation request contains the system prompt, exactly one truncated
user/assistant pair for each of the last `min k len` stored turns (a
suffix of the history, at most `k` pairs for any positive configured limit
`k`), and the new user message; the streaming WebSocket pipeline, by
contrast, passes its entire stored history unbounded
(`streaming_history_unbounded_counterexample`). -/
theorem chat_history_bounded (k : Nat) (hist : List ChatRoute.HistTurn)
    (u : String) (hk : 1 ≤ k) :
    (ChatRoute.chatMessages k hist u).length
      = 2 + 2 * (ChatRoute.sliceLast k hist).length ∧
    (ChatRoute.sliceLast k hist).length ≤ k ∧
    List.IsSuffix (ChatRoute.sliceLast k hist) hist := by
  have hk0 : k ≠ 0 := by omega
  refine ⟨?_, ?_, ?_⟩
  · by_cases hnil : 0 < hist.length
    · simp only [ChatRoute.chatMessages, hnil, if_true]
      rw [List.length_append, pairs_foldl_length]
      simp
      omega
    · have : hist = [] := by
        cases hist with
        | nil => rfl
        | cons a l => simp at hnil
      subst this
      simp [ChatRoute.chatMessages, ChatRoute.sliceLast]
  · rw [sliceLast_length k hk]
    omega
  · simp only [ChatRoute.sliceLast, hk0, if_false]
    exact List.drop_suffix _ _

/-- Witness for `chat_history_bounded` at the default limit of five
turn-pairs and a six-turn history. -/
theorem chat_history_bounded_witness :
    (ChatRoute.chatMessages chatMaxHistoryTurnsDefault
        [ChatRoute.HistTurn.mk "hu1" "ha1", ChatRoute.HistTurn.mk "hu2" "ha2",
         ChatRoute.HistTurn.mk "hu3" "ha3", ChatRoute.HistTurn.mk "hu4" "ha4",
         ChatRoute.HistTurn.mk "hu5" "ha5", ChatRoute.HistTurn.mk "hu6" "ha6"]
        "hello").length
      = 2 + 2 * (ChatRoute.sliceLast chatMaxHistoryTurnsDefault
        [ChatRoute.HistTurn.mk "hu1" "ha1", ChatRoute.HistTurn.mk "hu2" "ha2",
         ChatRoute.HistTurn.mk "hu3" "ha3", ChatRoute.HistTurn.mk "hu4" "ha4",
         ChatRoute.HistTurn.mk "hu5" "ha5", ChatRoute.HistTurn.mk "hu6" "ha6"]).length ∧
    (ChatRoute.sliceLast chatMaxHistoryTurnsDefault
        [ChatRoute.HistTurn.mk "hu1" "ha1", ChatRoute.HistTurn.mk "hu2" "ha2",
         ChatRoute.HistTurn.mk "hu3" "ha3", ChatRoute.HistTurn.mk "hu4" "ha4",
         ChatRoute.HistTurn.mk "hu5" "ha5", ChatRoute.HistTurn.mk "hu6" "ha6"]).length
      ≤ chatMaxHistoryTurnsDefault ∧
    List.IsSuffix
      (ChatRoute.sliceLast chatMaxHistoryTurnsDefault
        [ChatRoute.HistTurn.mk "hu1" "ha1", ChatRoute.HistTurn.mk "hu2" "ha2",
         ChatRoute.HistTurn.mk "hu3" "ha3", ChatRoute.HistTurn.mk "hu4" "ha4",
         ChatRoute.HistTurn.mk "hu5" "ha5", ChatRoute.HistTurn.mk "hu6" "ha6"])
      [ChatRoute.HistTurn.mk "hu1" "ha1", ChatRoute.HistTurn.mk "hu2" "ha2",
       ChatRoute.HistTurn.mk "hu3" "ha3", ChatRoute.HistTurn.mk "hu4" "ha4",
       ChatRoute.HistTurn.mk "hu5" "ha5", ChatRoute.HistTurn.mk "hu6" "ha6"] :=
  chat_history_bounded chatMaxHistoryTurnsDefault _ "hello" (by decide)

/-- C5: an utterance whose trimmed transcript is empty or shorter than the
minimum length (2) aborts the pipeline before any further step, in both
variants: the utterance buffer is cleared but the history is untouched,
and the empty action trace shows no `assistant.thinking` notification, no
generation call and no synthesis call were made. -/
theorem empty_transcript_aborts (envS : Streaming.PipelineEnv)
    (envN : NonStreaming.PipelineEnv) (s t : Session) (raw rawN : String)
    (hS : envS.transcription = CallResult.ok raw)
    (hlen : (jsTrim raw).length < 2)
    (hsb : s.audioBuffer.length ≠ 0)
    (hN : envN.transcription = CallResult.ok rawN)
    (hlenN : (jsTrim rawN).length < 2)
    (htb : t.audioBuffer.length ≠ 0) :
    Streaming.processAudioPipeline envS s = ({ s with audioBuffer := [] }, []) ∧
    NonStreaming.processAudioPipeline envN t = ({ t with audioBuffer := [] }, []) := by
  constructor
  · simp [Streaming.processAudioPipeline, hS, hsb, hlen]
  · simp [NonStreaming.processAudioPipeline, hN, htb, hlenN]

/-- The environment of the `empty_transcript_aborts` witness for the
streaming pipeline: the transcript trims to the single character "a". -/
def envShortTranscriptS : Streaming.PipelineEnv :=
  { transcription := CallResult.ok " a "
    generation := CallResult.ok ()
    tokens := []
    streamThrows := false
    tts := fun _ => CallResult.ok 0 }

/-- The environment of the `empty_transcript_aborts` witness for the
non-streaming pipeline: the transcript is empty. -/
def envShortTranscriptN : NonStreaming.PipelineEnv :=
  { transcription := CallResult.ok ""
    generation := CallResult.ok "x"
    tts := CallResult.ok 0 }

/-- Witness for `empty_transcript_aborts` on fresh sessions holding one
buffered frame each. -/
theorem empty_transcript_aborts_witness :
    Streaming.processAudioPipeline envShortTranscriptS
        { initSession Streaming.BASE_SYSTEM_PROMPT with audioBuffer := [[0, 64]] }
      = ({ initSession Streaming.BASE_SYSTEM_PROMPT with audioBuffer := [] }, []) ∧
    NonStreaming.processAudioPipeline envShortTranscriptN
        { initSession NonStreaming.BASE_SYSTEM_PROMPT with audioBuffer := [[1]] }
      = ({ initSession NonStreaming.BASE_SYSTEM_PROMPT with audioBuffer := [] }, []) :=
  empty_transcript_aborts envShortTranscriptS envShortTranscriptN
    { initSession Streaming.BASE_SYSTEM_PROMPT with audioBuffer := [[0, 64]] }
    { initSession NonStreaming.BASE_SYSTEM_PROMPT with audioBuffer := [[1]] }
    " a " "" rfl (by decide) (by decide) rfl (by decide) (by decide)

/-- Whether an action is an `{"type":"error"}` notification to the client. -/
def isErrorSend : Action → Bool
  | Action.send (ServerMsg.errorMsg _) => true
  | _ => false

/-- Number of error notifications in an action trace. -/
def countErr (l : List Action) : Nat := (l.filter isErrorSend).length

/-- Forwarded audio chunks are never error notifications (fuel form). -/
theorem filter_err_chunksFuel (fuel : Nat) :
    ∀ len : Nat,
      ((audioChunkSendsFuel fuel len).map Action.send).filter isErrorSend = [] := by
  induction fuel with
  | zero => intro len; cases len <;> rfl
  | succ f ih =>
      intro len
      cases len with
      | zero => rfl
      | succ l => simp [audioChunkSendsFuel, isErrorSend, ih]

/-- Forwarded audio chunks are never error notifications. -/
theorem filter_err_chunks (len : Nat) :
    ((audioChunkSends len).map Action.send).filter isErrorSend = [] :=
  filter_err_chunksFuel len len

/-- `generateAndStreamTTS` never emits an error notification — its
internal `catch` only logs. -/
theorem filter_err_gtts (res : CallResult Nat) (text : String) (isFirst : Bool) :
    (Streaming.generateAndStreamTTS res text isFirst).filter isErrorSend = [] := by
  cases res with
  | err => simp [Streaming.generateAndStreamTTS, isErrorSend]
  | ok len =>
      cases isFirst <;>
        simp [Streaming.generateAndStreamTTS, isErrorSend, List.filter_append,
          filter_err_chunks]

/-- The token loop never emits an error notification. -/
theorem filter_err_processToken (tts : Nat → CallResult Nat)
    (st : Streaming.LoopState) (c : String) :
    (Streaming.processToken tts st c).acts.filter isErrorSend
      = st.acts.filter isErrorSend := by
  unfold Streaming.processToken
  by_cases hc : c = ""
  · simp [hc]
  · simp only [hc, if_false]
    cases hm : matchDelimEnd (st.sentenceBuffer ++ c) with
    | none => simp
    | some i =>
        by_cases ht : 0 < (jsTrim ((st.sentenceBuffer ++ c).take i)).length
        · simp [ht, List.filter_append, filter_err_gtts, isErrorSend]
        · simp [ht]

/-- Folding the whole token stream never emits an error notification. -/
theorem filter_err_loop (tts : Nat → CallResult Nat) (tokens : List String) :
    ∀ st : Streaming.LoopState,
      (tokens.foldl (Streaming.processToken tts) st).acts.filter isErrorSend
        = st.acts.filter isErrorSend := by
  induction tokens with
  | nil => intro st; rfl
  | cons c cs ih =>
      intro st
      rw [List.foldl_cons, ih, filter_err_processToken]

/-- C4 counterexample: in the streaming variant a synthesis failure is
swallowed by `generateAndStreamTTS`'s internal catch — with transcription
and generation succeeding ("Hi!") and the TTS call throwing, the run sends
*zero* error notifications, still appends the assistant turn for that
utterance, and even emits `assistant.audio.end`, contradicting the claim
that any step's failure yields exactly one error notification and no
assistant turn. -/
theorem synthesis_failure_swallowed_counterexample :
    countErr (Streaming.processAudioPipeline
        { transcription := CallResult.ok "Tell me"
          generation := CallResult.ok ()
          tokens := ["Hi!"]
          streamThrows := false
          tts := fun _ => CallResult.err }
        { initSession Streaming.BASE_SYSTEM_PROMPT with audioBuffer := [[0, 64]] }).2
      = 0 ∧
    (Streaming.processAudioPipeline
        { transcription := CallResult.ok "Tell me"
          generation := CallResult.ok ()
          tokens := ["Hi!"]
          streamThrows := false
          tts := fun _ => CallResult.err }
        { initSession Streaming.BASE_SYSTEM_PROMPT with audioBuffer := [[0, 64]] }).1.history
      = [ChatMsg.mk "user" "Tell me", ChatMsg.mk "assistant" "Hi!"] ∧
    (Streaming.processAudioPipeline
        { transcription := CallResult.ok "Tell me"
          generation := CallResult.ok ()
          tokens := ["Hi!"]
          streamThrows := false
          tts := fun _ => CallResult.err }
        { initSession Streaming.BASE_SYSTEM_PROMPT with audioBuffer := [[0, 64]] }).2
      = [Action.send (ServerMsg.thinking "Tell me"),
         Action.generationCall,
         Action.send (ServerMsg.responseText "Hi!"),
         Action.ttsCall "Hi!",
         Action.send ServerMsg.audioEnd,
         Action.scheduleGateRelease 500] := by
  refine ⟨rfl, rfl, rfl⟩

/-- C4 amended: a *transcription* or *generation* failure (including a
mid-stream throw) behaves as claimed — exactly one error notification, no
assistant turn appended, history entries appended before the failure
preserved, and `isAiSpeaking` false in the failure path (reset by the
streaming catch; never yet set, and left untouched by the catch, in the
non-streaming variant).  A *synthesis* failure does not: the streaming
variant swallows it inside `generateAndStreamTTS` and continues
(`synthesis_failure_swallowed_counterexample`), and the non-streaming
variant does send one error but has already appended the assistant turn
before TTS, as the last conjunct shows. -/
theorem pipeline_failure_handling :
    (∀ (env : Streaming.PipelineEnv) (s : Session),
        s.audioBuffer.length ≠ 0 → env.transcription = CallResult.err →
        Streaming.processAudioPipeline env s
          = ({ s with audioBuffer := [], isAiSpeaking := false },
             [Action.send (ServerMsg.errorMsg "Processing failed")])) ∧
    (∀ (env : Streaming.PipelineEnv) (s : Session) (raw : String),
        s.audioBuffer.length ≠ 0 → env.transcription = CallResult.ok raw →
        2 ≤ (jsTrim raw).length → env.generation = CallResult.err →
        Streaming.processAudioPipeline env s
          = ({ s with audioBuffer := [],
                      history := s.history ++ [ChatMsg.mk "user" (jsTrim raw)],
                      isAiSpeaking := false },
             [Action.send (ServerMsg.thinking (jsTrim raw)),
              Action.generationCall,
              Action.send (ServerMsg.errorMsg "Processing failed")])) ∧
    (∀ (env : Streaming.PipelineEnv) (s : Session) (raw : String),
        s.audioBuffer.length ≠ 0 → env.transcription = CallResult.ok raw →
        2 ≤ (jsTrim raw).length → env.generation = CallResult.ok () →
        env.streamThrows = true →
        (Streaming.processAudioPipeline env s).1.isAiSpeaking = false ∧
        (Streaming.processAudioPipeline env s).1.history
          = s.history ++ [ChatMsg.mk "user" (jsTrim raw)] ∧
        countErr (Streaming.processAudioPipeline env s).2 = 1) ∧
    (∀ (env : NonStreaming.PipelineEnv) (t : Session),
        t.audioBuffer.length ≠ 0 → env.transcription = CallResult.err →
        NonStreaming.processAudioPipeline env t
          = ({ t with audioBuffer := [] },
             [Action.send (ServerMsg.errorMsg "Processing failed")])) ∧
    (∀ (env : NonStreaming.PipelineEnv) (t : Session) (raw : String),
        t.audioBuffer.length ≠ 0 → env.transcription = CallResult.ok raw →
        2 ≤ (jsTrim raw).length → env.generation = CallResult.err →
        NonStreaming.processAudioPipeline env t
          = ({ t with audioBuffer := [],
                      history := t.history ++ [ChatMsg.mk "user" (jsTrim raw)] },
             [Action.send (ServerMsg.thinking (jsTrim raw)),
              Action.generationCall,
              Action.send (ServerMsg.errorMsg "Processing failed")])) ∧
    (∀ (env : NonStreaming.PipelineEnv) (t : Session) (raw ai : String),
        t.audioBuffer.length ≠ 0 → env.transcription = CallResult.ok raw →
        2 ≤ (jsTrim raw).length → env.generation = CallResult.ok ai →
        env.tts = CallResult.err →
        NonStreaming.processAudioPipeline env t
          = ({ t with audioBuffer := [],
                      history := t.history
                        ++ [ChatMsg.mk "user" (jsTrim raw),
                            ChatMsg.mk "assistant" ai] },
             [Action.send (ServerMsg.thinking (jsTrim raw)),
              Action.generationCall,
              Action.send (ServerMsg.responseText ai),
              Action.ttsCall ai,
              Action.send (ServerMsg.errorMsg "Processing failed")])) := by
  refine ⟨?_, ?_, ?_, ?_, ?_, ?_⟩
  · intro env s hb ht
    simp [Streaming.processAudioPipeline, hb, ht]
  · intro env s raw hb ht hlen hg
    simp [Streaming.processAudioPipeline, hb, ht, hg, not_lt.mpr hlen]
  · intro env s raw hb ht hlen hg hst
    refine ⟨?_, ?_, ?_⟩
    · simp [Streaming.processAudioPipeline, hb, ht, hg, hst, not_lt.mpr hlen]
    · simp [Streaming.processAudioPipeline, hb, ht, hg, hst, not_lt.mpr hlen]
    · simp only [Streaming.processAudioPipeline, hb, ht, hg, hst,
        not_lt.mpr hlen, if_neg, if_false, if_true]
      simp [countErr, List.filter_append, filter_err_loop, isErrorSend,
        not_lt.mpr hlen]
  · intro env t hb ht
    simp [NonStreaming.processAudioPipeline, hb, ht]
  · intro env t raw hb ht hlen hg
    simp [NonStreaming.processAudioPipeline, hb, ht, hg, not_lt.mpr hlen]
  · intro env t raw ai hb ht hlen hg htts
    simp [NonStreaming.processAudioPipeline, hb, ht, hg, htts, not_lt.mpr hlen]

/-- Witness for `pipeline_failure_handling`, instantiating each failure
scenario at concrete environments and a fresh session holding one frame. -/
theorem pipeline_failure_handling_witness :
    Streaming.processAudioPipeline
        { transcription := CallResult.err, generation := CallResult.ok (),
          tokens := [], streamThrows := false, tts := fun _ => CallResult.ok 0 }
        { initSession Streaming.BASE_SYSTEM_PROMPT with audioBuffer := [[0, 64]] }
      = ({ initSession Streaming.BASE_SYSTEM_PROMPT with
            audioBuffer := [], isAiSpeaking := false },
         [Action.send (ServerMsg.errorMsg "Processing failed")]) ∧
    Streaming.processAudioPipeline
        { transcription := CallResult.ok "Hi there", generation := CallResult.err,
          tokens := [], streamThrows := false, tts := fun _ => CallResult.ok 0 }
        { initSession Streaming.BASE_SYSTEM_PROMPT with audioBuffer := [[0, 64]] }
      = ({ initSession Streaming.BASE_SYSTEM_PROMPT with
            audioBuffer := [],
            history := [] ++ [ChatMsg.mk "user" (jsTrim "Hi there")],
            isAiSpeaking := false },
         [Action.send (ServerMsg.thinking (jsTrim "Hi there")),
          Action.generationCall,
          Action.send (ServerMsg.errorMsg "Processing failed")]) ∧
    countErr (Streaming.processAudioPipeline
        { transcription := CallResult.ok "Hi there", generation := CallResult.ok (),
          tokens := ["Hel", "lo."], streamThrows := true,
          tts := fun _ => CallResult.ok 800 }
        { initSession Streaming.BASE_SYSTEM_PROMPT with audioBuffer := [[0, 64]] }).2
      = 1 ∧
    NonStreaming.processAudioPipeline
        { transcription := CallResult.ok "Hi there", generation := CallResult.ok "Sure.",
          tts := CallResult.err }
        { initSession NonStreaming.BASE_SYSTEM_PROMPT with audioBuffer := [[1, 2]] }
      = ({ initSession NonStreaming.BASE_SYSTEM_PROMPT with
            audioBuffer := [],
            history := [] ++ [ChatMsg.mk "user" (jsTrim "Hi there"),
                              ChatMsg.mk "assistant" "Sure."] },
         [Action.send (ServerMsg.thinking (jsTrim "Hi there")),
          Action.generationCall,
          Action.send (ServerMsg.responseText "Sure."),
          Action.ttsCall "Sure.",
          Action.send (ServerMsg.errorMsg "Processing failed")]) :=
  ⟨pipeline_failure_handling.1 _ _ (by decide) rfl,
   pipeline_failure_handling.2.1 _ _ "Hi there" (by decide) rfl (by decide) rfl,
   (pipeline_failure_handling.2.2.1 _ _ "Hi there" (by decide) rfl (by decide)
      rfl rfl).2.2,
   pipeline_failure_handling.2.2.2.2.2 _ _ "Hi there" "Sure." (by decide) rfl
      (by decide) rfl rfl⟩

/-- C7: on the reply token stream accumulating to "Hello! How are you?"
(tokens "Hello", "!", " How", " are", " you", "?"), the sentence-streaming
pipeline issues exactly two synthesis calls, for the units "Hello!" and
" How are you?" in that order, and sends `assistant.audio.start` exactly
once — after the first unit's synthesis call and before its audio chunks,
and not before the second unit.  The full action trace makes the ordering
explicit. -/
theorem sentence_streaming_two_units :
    (Streaming.processAudioPipeline
        { transcription := CallResult.ok "Tell me"
          generation := CallResult.ok ()
          tokens := ["Hello", "!", " How", " are", " you", "?"]
          streamThrows := false
          tts := fun i => if i = 0 then CallResult.ok 5000 else CallResult.ok 6000 }
        { initSession Streaming.BASE_SYSTEM_PROMPT with audioBuffer := [[0, 64]] }).2
      = [Action.send (ServerMsg.thinking "Tell me"),
         Action.generationCall,
         Action.send (ServerMsg.responseText "Hello!"),
         Action.ttsCall "Hello!",
         Action.send ServerMsg.audioStart,
         Action.send (ServerMsg.audioChunk 4096),
         Action.send (ServerMsg.audioChunk 904),
         Action.send (ServerMsg.responseText "Hello! How are you?"),
         Action.ttsCall " How are you?",
         Action.send (ServerMsg.audioChunk 4096),
         Action.send (ServerMsg.audioChunk 1904),
         Action.send ServerMsg.audioEnd,
         Action.scheduleGateRelease 500] ∧
    ((Streaming.processAudioPipeline
        { transcription := CallResult.ok "Tell me"
          generation := CallResult.ok ()
          tokens := ["Hello", "!", " How", " are", " you", "?"]
          streamThrows := false
          tts := fun i => if i = 0 then CallResult.ok 5000 else CallResult.ok 6000 }
        { initSession Streaming.BASE_SYSTEM_PROMPT with audioBuffer := [[0, 64]] }).2.filterMap
      (fun a => match a with
        | Action.ttsCall t => some t
        | _ => none))
      = ["Hello!", " How are you?"] ∧
    ((Streaming.processAudioPipeline
        { transcription := CallResult.ok "Tell me"
          generation := CallResult.ok ()
          tokens := ["Hello", "!", " How", " are", " you", "?"]
          streamThrows := false
          tts := fun i => if i = 0 then CallResult.ok 5000 else CallResult.ok 6000 }
        { initSession Streaming.BASE_SYSTEM_PROMPT with audioBuffer := [[0, 64]] }).2.count
      (Action.send ServerMsg.audioStart))
      = 1 := by
  refine ⟨rfl, rfl, rfl⟩

/-- The squared VAD threshold of the streaming variant, i.e. the value the
embedded handler compares a frame's squared RMS against. -/
def streamingThresholdSq : ℚ := Streaming.VAD_THRESHOLD * Streaming.VAD_THRESHOLD

/-- Unfolding `runEvents` over a leading event. -/
theorem runEvents_cons (θ : ℚ) (s : Session) (e : Event) (evs : List Event) :
    runEvents θ s (e :: evs) = runEvents θ (step θ s e).1 evs := by
  simp [runEvents]

/-- Unfolding `runActs` over a leading event. -/
theorem runActs_cons (θ : ℚ) (s : Session) (e : Event) (evs : List Event) :
    runActs θ s (e :: evs) = (step θ s e).2 ++ runActs θ (step θ s e).1 evs := rfl

/-- A 2-byte frame holding the single 16-bit sample `0x4000 = 16384`: its
mean square is `(16384/32768)² = 1/4`, far above the squared streaming
threshold `1/2500`, so it is always classified as speech. -/
def loudFrame : List Nat := [0, 64]

/-- The loud frame is classified as speech by the streaming threshold.
(Settled by `norm_num`; concrete `Rat` arithmetic does not kernel-reduce.) -/
theorem loudFrame_is_speech :
    jsGt (calculateRMSsq loudFrame) streamingThresholdSq = true := by
  have h : calculateRMSsq loudFrame = JSNum.val (1 / 4) := by
    norm_num [calculateRMSsq, loudFrame, int16Samples, int16OfBytes]
  rw [h]
  show decide (streamingThresholdSq < 1 / 4) = true
  exact decide_eq_true
    (by norm_num [streamingThresholdSq, Streaming.VAD_THRESHOLD])

/-- Processing a loud frame with the gate open appends it to the utterance
buffer, leaves the gate open, and triggers no pipeline invocation. -/
theorem handle_loud (s : Session) (h : s.isAiSpeaking = false) :
    (handleBinaryFrame streamingThresholdSq s loudFrame).1.audioBuffer
        = s.audioBuffer ++ [loudFrame] ∧
    (handleBinaryFrame streamingThresholdSq s loudFrame).1.isAiSpeaking = false ∧
    Action.invokePipeline ∉ (handleBinaryFrame streamingThresholdSq s loudFrame).2 := by
  cases hsp : s.isSpeaking <;> cases hst : s.silenceTimerSet <;>
    simp [handleBinaryFrame, h, hsp, hst, loudFrame_is_speech]

/-- An unbroken run of loud frames grows the buffer one frame per event
and never invokes the pipeline. -/
theorem loud_run (n : Nat) :
    ∀ s : Session, s.isAiSpeaking = false →
      (runEvents streamingThresholdSq s
          (List.replicate n (Event.binaryFrame loudFrame))).audioBuffer.length
        = s.audioBuffer.length + n ∧
      Action.invokePipeline ∉
        runActs streamingThresholdSq s
          (List.replicate n (Event.binaryFrame loudFrame)) := by
  induction n with
  | zero => intro s h; simp [runEvents, runActs]
  | succ n ih =>
      intro s h
      rw [List.replicate_succ, runEvents_cons, runActs_cons]
      obtain ⟨hb, hg, hm⟩ := handle_loud s h
      have ihs := ih (handleBinaryFrame streamingThresholdSq s loudFrame).1 hg
      constructor
      · show (runEvents streamingThresholdSq
            (handleBinaryFrame streamingThresholdSq s loudFrame).1
            (List.replicate n (Event.binaryFrame loudFrame))).audioBuffer.length = _
        rw [ihs.1, hb]
        simp [List.length_append]
        omega
      · intro hmem
        rcases List.mem_append.mp hmem with h1 | h1
        · exact hm h1
        · exact ihs.2 h1

/-- C2 (code bug): `MAX_RECORDING_MS = 15000` is declared — with the
comment "Force process after 15s to avoid huge buffers" — but wired to no
enforcement path: an unbroken run of `n` speech-classified frames (one
16 kHz sample each, so `n/16` ms of audio; the hypothesis makes that more
than `MAX_RECORDING_MS`) is accumulated in full, the buffer reaching `n`
frames, and the utterance is never handed to the pipeline. -/
theorem max_recording_unenforced (n : Nat)
    (hn : 16 * MAX_RECORDING_MS < n) :
    MAX_RECORDING_MS = 15000 ∧
    (runEvents streamingThresholdSq (initSession Streaming.BASE_SYSTEM_PROMPT)
        (List.replicate n (Event.binaryFrame loudFrame))).audioBuffer.length = n ∧
    Action.invokePipeline ∉
      runActs streamingThresholdSq (initSession Streaming.BASE_SYSTEM_PROMPT)
        (List.replicate n (Event.binaryFrame loudFrame)) := by
  have h := loud_run n (initSession Streaming.BASE_SYSTEM_PROMPT) rfl
  exact ⟨rfl, by simpa [initSession] using h.1, h.2⟩

/-- Witness for `max_recording_unenforced`: 240001 one-sample frames are
more than 15000 ms of audio. -/
theorem max_recording_unenforced_witness :
    MAX_RECORDING_MS = 15000 ∧
    (runEvents streamingThresholdSq (initSession Streaming.BASE_SYSTEM_PROMPT)
        (List.replicate 240001 (Event.binaryFrame loudFrame))).audioBuffer.length
      = 240001 ∧
    Action.invokePipeline ∉
      runActs streamingThresholdSq (initSession Streaming.BASE_SYSTEM_PROMPT)
        (List.replicate 240001 (Event.binaryFrame loudFrame)) :=
  max_recording_unenforced 240001 (by decide)

/-- The timer invariant: the runtime holds exactly one pending silence
timeout when `session.silenceTimer` is non-null and none otherwise. -/
def TimerInv (s : Session) : Prop :=
  s.pendingTimers = if s.silenceTimerSet then 1 else 0

/-- The binary-frame handler preserves the timer invariant. -/
theorem timerInv_handleBinaryFrame (θ : ℚ) (s : Session) (buf : List Nat)
    (h : TimerInv s) : TimerInv (handleBinaryFrame θ s buf).1 := by
  unfold TimerInv at h ⊢
  cases hg : s.isAiSpeaking with
  | true => simpa [handleBinaryFrame, hg] using h
  | false =>
      cases hv : jsGt (calculateRMSsq buf) θ <;>
        cases hsp : s.isSpeaking <;> cases hst : s.silenceTimerSet <;>
        simp [handleBinaryFrame, hg, hv, hsp, hst] at h ⊢ <;> omega

/-- Every event preserves the timer invariant. -/
theorem timerInv_step (θ : ℚ) (s : Session) (e : Event) (h : TimerInv s) :
    TimerInv (step θ s e).1 := by
  cases e with
  | binaryFrame buf => exact timerInv_handleBinaryFrame θ s buf h
  | timerFire =>
      unfold TimerInv at h ⊢
      by_cases hp : s.pendingTimers = 0
      · simpa [step, hp] using h
      · cases hst : s.silenceTimerSet <;>
          simp [step, hp, handleSilenceTimerFire, hst] at h ⊢ <;> omega

/-- The timer invariant holds along every event trace. -/
theorem timerInv_runEvents (θ : ℚ) (evs : List Event) :
    ∀ s : Session, TimerInv s → TimerInv (runEvents θ s evs) := by
  induction evs with
  | nil => intro s h; exact h
  | cons e evs ih =>
      intro s h
      rw [runEvents_cons]
      exact ih _ (timerInv_step θ s e h)

/-- C6: silence-timer discipline.  (1) Along every sequence of frame
arrivals and timer firings from a fresh session, at most one silence
timer is pending at any time; (2) a timer is armed (the pending count
grows) only when the session is speaking, no timer is set, the Echo Gate
is open and the frame classified as silence; (3) any speech-classified
frame leaves the timer cleared; (4) a firing timer sets `speaking` to
false, clears itself, emits exactly one `vad.speech_end` notification and
exactly one pipeline invocation. -/
theorem silence_timer_discipline :
    (∀ (basePrompt : String) (θ : ℚ) (evs : List Event),
        (runEvents θ (initSession basePrompt) evs).pendingTimers ≤ 1) ∧
    (∀ (θ : ℚ) (s : Session) (buf : List Nat),
        s.pendingTimers < (handleBinaryFrame θ s buf).1.pendingTimers →
        s.isSpeaking = true ∧ s.silenceTimerSet = false ∧
        s.isAiSpeaking = false ∧ jsGt (calculateRMSsq buf) θ = false) ∧
    (∀ (θ : ℚ) (s : Session) (buf : List Nat),
        s.isAiSpeaking = false → jsGt (calculateRMSsq buf) θ = true →
        (handleBinaryFrame θ s buf).1.silenceTimerSet = false) ∧
    (∀ s : Session,
        (handleSilenceTimerFire s).1.isSpeaking = false ∧
        (handleSilenceTimerFire s).1.silenceTimerSet = false ∧
        (handleSilenceTimerFire s).2.count (Action.send ServerMsg.speechEnd) = 1 ∧
        (handleSilenceTimerFire s).2.count Action.invokePipeline = 1) := by
  refine ⟨?_, ?_, ?_, ?_⟩
  · intro basePrompt θ evs
    have h := timerInv_runEvents θ evs (initSession basePrompt) rfl
    unfold TimerInv at h
    rw [h]
    cases (runEvents θ (initSession basePrompt) evs).silenceTimerSet <;> simp
  · intro θ s buf hlt
    cases hg : s.isAiSpeaking with
    | true => simp [handleBinaryFrame, hg] at hlt
    | false =>
        cases hv : jsGt (calculateRMSsq buf) θ with
        | true =>
            exfalso
            cases hsp : s.isSpeaking <;> cases hst : s.silenceTimerSet <;>
              simp [handleBinaryFrame, hg, hv, hsp, hst] at hlt <;> omega
        | false =>
            cases hsp : s.isSpeaking <;> cases hst : s.silenceTimerSet <;>
              simp [handleBinaryFrame, hg, hv, hsp, hst] at hlt <;>
              exact ⟨rfl, rfl, rfl, rfl⟩
  · intro θ s buf hg hv
    cases hsp : s.isSpeaking <;> cases hst : s.silenceTimerSet <;>
      simp [handleBinaryFrame, hg, hv, hsp, hst]
  · intro s
    exact ⟨rfl, rfl, rfl, rfl⟩

/-- Witness for `silence_timer_discipline`: a concrete two-event trace, a
concrete arming step (silent 1-byte frame on a speaking session), a
concrete speech frame cancelling a set timer, and a concrete firing. -/
theorem silence_timer_discipline_witness :
    (runEvents streamingThresholdSq (initSession Streaming.BASE_SYSTEM_PROMPT)
        [Event.binaryFrame [7], Event.timerFire]).pendingTimers ≤ 1 ∧
    (({ initSession Streaming.BASE_SYSTEM_PROMPT with
          isSpeaking := true } : Session).isSpeaking = true ∧
     ({ initSession Streaming.BASE_SYSTEM_PROMPT with
          isSpeaking := true } : Session).silenceTimerSet = false ∧
     ({ initSession Streaming.BASE_SYSTEM_PROMPT with
          isSpeaking := true } : Session).isAiSpeaking = false ∧
     jsGt (calculateRMSsq [7]) streamingThresholdSq = false) ∧
    (handleBinaryFrame streamingThresholdSq
        { initSession Streaming.BASE_SYSTEM_PROMPT with
            isSpeaking := true, silenceTimerSet := true, pendingTimers := 1 }
        loudFrame).1.silenceTimerSet = false ∧
    ((handleSilenceTimerFire
        (initSession Streaming.BASE_SYSTEM_PROMPT)).1.isSpeaking = false ∧
     (handleSilenceTimerFire
        (initSession Streaming.BASE_SYSTEM_PROMPT)).1.silenceTimerSet = false ∧
     (handleSilenceTimerFire
        (initSession Streaming.BASE_SYSTEM_PROMPT)).2.count
          (Action.send ServerMsg.speechEnd) = 1 ∧
     (handleSilenceTimerFire
        (initSession Streaming.BASE_SYSTEM_PROMPT)).2.count
          Action.invokePipeline = 1) :=
  ⟨silence_timer_discipline.1 _ _ _,
   silence_timer_discipline.2.1 streamingThresholdSq
     { initSession Streaming.BASE_SYSTEM_PROMPT with isSpeaking := true }
     [7] (by decide),
   silence_timer_discipline.2.2.1 streamingThresholdSq
     { initSession Streaming.BASE_SYSTEM_PROMPT with
         isSpeaking := true, silenceTimerSet := true, pendingTimers := 1 }
     loudFrame rfl loudFrame_is_speech,
   silence_timer_discipline.2.2.2 _⟩

/-- Witness for `relay_immediate_close` at the fully-open relay state. -/
theorem relay_immediate_close_witness :
    Relay.onUpstreamClose { clientOpen := true, upstreamOpen := false }
      = ({ clientOpen := false, upstreamOpen := false },
         [Relay.RelayAction.closeClient]) ∧
    (Relay.onUpstreamClose
        { clientOpen := true, upstreamOpen := false }).2.filter Relay.isReconnect
      = [] ∧
    Relay.onUpstreamCloseSimple { clientOpen := true, upstreamOpen := false }
      = ({ clientOpen := false, upstreamOpen := false },
         [Relay.RelayAction.closeClient]) ∧
    (∀ st2 : Relay.RelayState, st2.upstreamOpen = true →
        Relay.onClientClose st2
          = ({ clientOpen := false, upstreamOpen := false },
             [Relay.RelayAction.closeUpstream])) :=
  relay_immediate_close { clientOpen := true, upstreamOpen := false } rfl

end VoiceTutor
